import Mathlib

set_option linter.unusedVariables false

/-!
Verification of the PyDrought standardization and calibration core.

Shallow embedding of:
  - src/indices/meteorological.py : `standardized_precipitation_index` (SPI),
    `standardized_precipitation_evapotranspiration_index` (SPEI);
  - src/calibration/distribution.py : `fit_gamma_distribution`,
    `fit_weibull_distribution`, `fit_log_normal_distribution`, `fit_distribution`;
  - src/calibration/calibration_utils.py : `self_calibrated_pdsi`,
    `calibrate_index`, `update_calibration_parameters`.

Modelling conventions:
  - Python floats are modelled as rationals (`ℚ`); IEEE rounding is out of scope.
  - A missing value (pandas `NaN` produced by the rolling warm-up) is `none` in
    `Option ℚ`; raw input series carry no missing values, matching the claims.
  - External library routines (scipy `stats.gamma.fit`, `gamma.cdf`, `norm.ppf`,
    sklearn `LinearRegression`, scipy `minimize`) are not repository code: they
    appear as explicit function parameters of the embedded definitions, so every
    theorem quantifies over them unless a boundary fact about them is itself the
    subject of a claim (then a model of that fact is introduced and documented).
  - A Python exception raised by repository code is `Except.error` of `PyError`.
-/

/-- Fitted distribution parameters: the `(shape, loc, scale)` triple returned by
the scipy fitters and consumed positionally by `gamma.cdf(aggregated, *params)`. -/
structure DistParams where
  shape : ℚ
  loc : ℚ
  scale : ℚ
deriving DecidableEq, Repr

/-- Exceptions that repository code can raise in the embedded fragment. -/
inductive PyError where
  /-- `raise ValueError(...)` in `fit_distribution` for an unknown family name. -/
  | valueError
  /-- out-of-range `new_params[i]` in `update_calibration_parameters`. -/
  | indexError
deriving DecidableEq, Repr

/-- Embedding of `pd.Series(xs).rolling(window=w).sum()` (meteorological.py line
193 and line 222): right-aligned rolling sum; output index `i` is the sum of
`xs[i+1-w .. i]` once `w` observations are available, and missing (`NaN`,
here `none`) for the first `w - 1` positions. -/
def rollingSum (xs : List ℚ) (w : Nat) : List (Option ℚ) :=
  (List.range xs.length).map (fun i =>
    if w ≤ i + 1 then some (((xs.drop (i + 1 - w)).take w).sum) else none)

/-- Embedding of `fit_gamma_distribution` (distribution.py lines 23-37): keep the
strictly positive values, then call the library fitter `gammaFit` (scipy
`stats.gamma.fit`, abstracted) on whatever remains — there is no minimum-count
check in the source. -/
def fit_gamma_distribution (gammaFit : List ℚ → DistParams) (data : List ℚ) :
    DistParams :=
  gammaFit (data.filter (fun x => decide (0 < x)))

/-- Embedding of `fit_weibull_distribution` (distribution.py lines 39-52). -/
def fit_weibull_distribution (weibullFit : List ℚ → DistParams) (data : List ℚ) :
    DistParams :=
  weibullFit (data.filter (fun x => decide (0 < x)))

/-- Embedding of `fit_log_normal_distribution` (distribution.py lines 54-67). -/
def fit_log_normal_distribution (lognormFit : List ℚ → DistParams) (data : List ℚ) :
    DistParams :=
  lognormFit (data.filter (fun x => decide (0 < x)))

/-- Embedding of `fit_distribution` (distribution.py lines 69-87): dispatch on the
family name; any other name raises `ValueError` (the source message reads
`Unsupported distribution type. Choose gamma, weibull, or lognormal.`). -/
def fit_distribution (gammaFit weibullFit lognormFit : List ℚ → DistParams)
    (data : List ℚ) (distribution_type : String) : Except PyError DistParams :=
  if distribution_type = "gamma" then
    Except.ok (fit_gamma_distribution gammaFit data)
  else if distribution_type = "weibull" then
    Except.ok (fit_weibull_distribution weibullFit data)
  else if distribution_type = "lognormal" then
    Except.ok (fit_log_normal_distribution lognormFit data)
  else
    Except.error PyError.valueError

/-- Embedding of `standardized_precipitation_index` (meteorological.py lines
174-201). `cdf` abstracts scipy `gamma.cdf` with the fitted parameters applied
elementwise; `ppf` abstracts `norm.ppf` (its codomain `α` is left abstract so
the float codomain with infinities can be instantiated where needed); `gammaFit`
abstracts `stats.gamma.fit` inside `fit_gamma_distribution`. Missing aggregated
values (`none`) propagate through both elementwise maps, as `NaN` does through
`gamma.cdf` and `norm.ppf`. -/
def standardized_precipitation_index {α : Type} (cdf : DistParams → ℚ → ℚ)
    (ppf : ℚ → α) (gammaFit : List ℚ → DistParams) (precip : List ℚ) (scale : Nat)
    (distribution_params : Option DistParams) : List (Option α) :=
  let aggregated := rollingSum precip scale
  let params :=
    match distribution_params with
    | none => fit_gamma_distribution gammaFit (aggregated.filterMap id)
    | some p => p
  let cdf_vals := aggregated.map (fun v => v.map (cdf params))
  cdf_vals.map (fun v => v.map ppf)

/-- Embedding of `standardized_precipitation_evapotranspiration_index`
(meteorological.py lines 204-228): water balance `D = precip - pet` (elementwise,
the two numpy arrays must have equal length for the subtraction), then the same
rolling sum / optional fit / `gamma.cdf` / `norm.ppf` pipeline as SPI. -/
def standardized_precipitation_evapotranspiration_index {α : Type}
    (cdf : DistParams → ℚ → ℚ) (ppf : ℚ → α) (gammaFit : List ℚ → DistParams)
    (precip pet : List ℚ) (scale : Nat) (distribution_params : Option DistParams) :
    List (Option α) :=
  let D := List.zipWith (fun p e => p - e) precip pet
  let aggregated := rollingSum D scale
  let params :=
    match distribution_params with
    | none => fit_gamma_distribution gammaFit (aggregated.filterMap id)
    | some p => p
  let cdf_vals := aggregated.map (fun v => v.map (cdf params))
  cdf_vals.map (fun v => v.map ppf)

/-- Values of the inverse standard normal CDF including the infinite results at
the boundary probabilities, which `ℚ` cannot represent. -/
inductive FloatVal where
  | negInf
  | posInf
  | val (q : ℚ)
deriving DecidableEq, Repr

/-- Modelled from the spec: `norm.ppf` is external scipy code; the spec states
that at probabilities exactly 0 and 1 "the exact inverse is undefined
(±infinity)". `ppfMid` abstracts the finite interior values. -/
def norm_ppf (ppfMid : ℚ → ℚ) (p : ℚ) : FloatVal :=
  if p = 0 then FloatVal.negInf
  else if p = 1 then FloatVal.posInf
  else FloatVal.val (ppfMid p)

/-- Modelled from the spec: `gamma.cdf` is external scipy code; the spec states
the gamma family has positive support (values at or below the location parameter
are outside it), so the CDF is exactly 0 at and below `loc`. `cdfMid` abstracts
the interior values. -/
def gamma_cdf (cdfMid : DistParams → ℚ → ℚ) (params : DistParams) (x : ℚ) : ℚ :=
  if x ≤ params.loc then 0 else cdfMid params x

/-- Three-list pointwise combination, used for the linear PDSI model
`a * precip + b * temp + c * soil_moisture` over equal-length series. -/
def zipWith3 {α β γ δ : Type} (f : α → β → γ → δ) :
    List α → List β → List γ → List δ
  | a :: as, b :: bs, c :: cs => f a b c :: zipWith3 f as bs cs
  | _, _, _ => []

/-- Embedding of `self_calibrated_pdsi` (calibration_utils.py lines 22-64):
builds the squared-error objective for the linear model, reads the initial
guess from `initial_parameters` with default 1 per coefficient, runs the
(abstracted) Nelder-Mead `minimize`, and returns the reconstructed series with
the calibrated coefficient dictionary. No input validation is performed. -/
def self_calibrated_pdsi (minimize : ((ℚ × ℚ × ℚ) → ℚ) → (ℚ × ℚ × ℚ) → (ℚ × ℚ × ℚ))
    (target_pdsi precip temp soil_moisture : List ℚ)
    (initial_parameters : List (String × ℚ)) : List ℚ × List (String × ℚ) :=
  let objective := fun (params : ℚ × ℚ × ℚ) =>
    ((zipWith3 (fun p t s => params.1 * p + params.2.1 * t + params.2.2 * s)
        precip temp soil_moisture).zipWith (fun m o => (m - o) ^ 2) target_pdsi).sum
  let init_params := ((initial_parameters.lookup "a").getD 1,
    (initial_parameters.lookup "b").getD 1, (initial_parameters.lookup "c").getD 1)
  let result := minimize objective init_params
  let calibrated_pdsi := zipWith3
    (fun p t s => result.1 * p + result.2.1 * t + result.2.2 * s)
    precip temp soil_moisture
  (calibrated_pdsi, [("a", result.1), ("b", result.2.1), ("c", result.2.2)])

/-- Embedding of `calibrate_index` (calibration_utils.py lines 66-95): the two
fields `observed` and `input_data` of `calibration_data` are the two list
arguments; `kwargs` is accepted and never used, as in the source; `minimize`
abstracts the Nelder-Mead search started at `(1, 1)`. The result is the
coefficient dictionary with keys `a` and `b` and the index recomputed at those
coefficients. No input validation is performed. -/
def calibrate_index (minimize : ((ℚ × ℚ) → ℚ) → (ℚ × ℚ) → (ℚ × ℚ))
    (index_function : List ℚ → ℚ → ℚ → List ℚ)
    (observed input_data : List ℚ) (kwargs : List (String × ℚ)) :
    List (String × ℚ) × List ℚ :=
  let objective := fun (params : ℚ × ℚ) =>
    ((index_function input_data params.1 params.2).zipWith
      (fun m o => (m - o) ^ 2) observed).sum
  let result := minimize objective (1, 1)
  let best_params := [("a", result.1), ("b", result.2)]
  (best_params, index_function input_data result.1 result.2)

/-- Loop of `update_calibration_parameters` (calibration_utils.py lines 129-130):
`for i, key in enumerate(old_params.keys()): updated[key] = 0.7 * old[key] +
0.3 * new_params[i]`; the subscript `new_params[i]` raises `IndexError` when
`i` is out of range of the regression coefficient array. -/
def update_loop (new_params : List ℚ) :
    Nat → List (String × ℚ) → Except PyError (List (String × ℚ))
  | _, [] => Except.ok []
  | i, (key, v) :: rest =>
    match new_params[i]? with
    | none => Except.error PyError.indexError
    | some nv =>
      match update_loop new_params (i + 1) rest with
      | Except.error e => Except.error e
      | Except.ok tl => Except.ok ((key, 0.7 * v + 0.3 * nv) :: tl)

/-- Embedding of `update_calibration_parameters` (calibration_utils.py lines
97-132): fit a linear regression on the new data (`linfit` abstracts sklearn
`LinearRegression().fit(...).coef_`, giving an unkeyed coefficient array), then
blend per key with fixed weights `weight_old = 0.7`, `weight_new = 0.3`. -/
def update_calibration_parameters (linfit : List (List ℚ) → List ℚ → List ℚ)
    (old_params : List (String × ℚ)) (X_new : List (List ℚ)) (y_new : List ℚ) :
    Except PyError (List (String × ℚ)) :=
  let new_params := linfit X_new y_new
  update_loop new_params 0 old_params

/-! ### Shared helper lemmas -/

/-- A contiguous slice of a list is the list of its entries read off by index. -/
lemma take_drop_eq_map_range (xs : List ℚ) (a w : Nat) (h : a + w ≤ xs.length) :
    (xs.drop a).take w = (List.range w).map (fun j => xs.getD (a + j) 0) := by
  apply List.ext_getElem
  · simp [List.length_take, List.length_drop]
    omega
  · intro i h1 h2
    simp only [List.length_take, List.length_drop] at h1
    simp only [List.length_map, List.length_range] at h2
    simp only [List.getElem_take, List.getElem_drop, List.getElem_map,
      List.getElem_range]
    rw [List.getD_eq_getElem?_getD, List.getElem?_eq_getElem (by omega)]
    rfl

/-- Entry `i` of the rolling sum, for `i` inside the series. -/
lemma rollingSum_entry (xs : List ℚ) (w i : Nat) (h : i < xs.length) :
    (rollingSum xs w)[i]? =
      some (if w ≤ i + 1 then some (((xs.drop (i + 1 - w)).take w).sum)
            else none) := by
  simp [rollingSum, List.getElem?_map, List.getElem?_range, h]

/-- Entry `i` of the SPI output with supplied parameters, as a function of the
corresponding aggregated entry. -/
lemma spi_entry {α : Type} (cdf : DistParams → ℚ → ℚ) (ppf : ℚ → α)
    (gammaFit : List ℚ → DistParams) (precip : List ℚ) (scale : Nat)
    (p : DistParams) (i : Nat) :
    (standardized_precipitation_index cdf ppf gammaFit precip scale (some p))[i]? =
      ((rollingSum precip scale)[i]?).map
        (fun v => (v.map (cdf p)).map ppf) := by
  simp [standardized_precipitation_index, List.getElem?_map]

/-! ### Claim theorems -/

/-- C1: for a series of length `n` and a scale `s` with `1 ≤ s ≤ n`, the
aggregated series inside `standardized_precipitation_index` has length `n`, its
first `s - 1` entries are missing, entry `i` for `s - 1 ≤ i < n` is the sum of
the raw inputs at positions `i - s + 1 .. i`, and the standardized output has
the same length as the input. -/
theorem spi_aggregation_length_and_window (precip : List ℚ) (s : Nat)
    (hs1 : 1 ≤ s) (hsn : s ≤ precip.length) :
    (rollingSum precip s).length = precip.length ∧
    (∀ i, i < s - 1 → (rollingSum precip s)[i]? = some none) ∧
    (∀ i, s - 1 ≤ i → i < precip.length →
      (rollingSum precip s)[i]? =
        some (some (((List.range s).map
          (fun j => precip.getD (i + 1 - s + j) 0)).sum))) ∧
    (∀ {α : Type} (cdf : DistParams → ℚ → ℚ) (ppf : ℚ → α)
      (gammaFit : List ℚ → DistParams) (dp : Option DistParams),
      (standardized_precipitation_index cdf ppf gammaFit precip s dp).length =
        precip.length) := by
  refine ⟨by simp [rollingSum], ?_, ?_, ?_⟩
  · intro i hi
    rw [rollingSum_entry precip s i (by omega), if_neg (by omega)]
  · intro i hi1 hi2
    rw [rollingSum_entry precip s i hi2, if_pos (by omega),
      take_drop_eq_map_range precip (i + 1 - s) s (by omega)]
  · intro α cdf ppf gammaFit dp
    simp [standardized_precipitation_index, rollingSum]

/-- Witness for C1 at `precip = [1, 2, 3]`, `s = 2`, `i = 1`. -/
theorem spi_aggregation_length_and_window_witness :
    1 ≤ 2 ∧ 2 ≤ [(1 : ℚ), 2, 3].length ∧
    (rollingSum [(1 : ℚ), 2, 3] 2)[1]? =
      some (some (((List.range 2).map
        (fun j => [(1 : ℚ), 2, 3].getD (1 + 1 - 2 + j) 0)).sum)) :=
  ⟨by decide, by decide,
    (spi_aggregation_length_and_window [(1 : ℚ), 2, 3] 2 (by decide)
      (by decide)).2.2.1 1 (by decide) (by decide)⟩

/-- C2: with supplied (non-`none`) `distribution_params`,
`standardized_precipitation_index` never invokes distribution fitting (its
output does not depend on the fitter at all), and the output is determined
pointwise by the aggregated inputs: two calls with the same parameters whose
aggregated series agree at an index produce the same output at that index, even
for different raw series and different fitters. -/
theorem spi_supplied_params_deterministic {α : Type}
    (cdf : DistParams → ℚ → ℚ) (ppf : ℚ → α)
    (gammaFit gammaFit' : List ℚ → DistParams) (precip precip' : List ℚ)
    (scale : Nat) (p : DistParams) :
    standardized_precipitation_index cdf ppf gammaFit precip scale (some p) =
      standardized_precipitation_index cdf ppf gammaFit' precip scale (some p) ∧
    (∀ i : Nat, (rollingSum precip scale)[i]? = (rollingSum precip' scale)[i]? →
      (standardized_precipitation_index cdf ppf gammaFit precip scale
          (some p))[i]? =
        (standardized_precipitation_index cdf ppf gammaFit' precip' scale
          (some p))[i]?) := by
  refine ⟨rfl, ?_⟩
  intro i h
  rw [spi_entry cdf ppf gammaFit precip scale p i,
    spi_entry cdf ppf gammaFit' precip' scale p i, h]

/-- Witness for C2: series `[1, 2, 3]` and `[9, 2, 3]` have equal aggregated
entries at index 1 for scale 1, and the SPI outputs agree there although the
raw series and the (bypassed) fitters differ. -/
theorem spi_supplied_params_deterministic_witness :
    (rollingSum [(1 : ℚ), 2, 3] 1)[1]? = (rollingSum [(9 : ℚ), 2, 3] 1)[1]? ∧
    (standardized_precipitation_index (fun q x => q.shape * x) (fun x => x)
        (fun _ => ⟨0, 0, 0⟩) [(1 : ℚ), 2, 3] 1 (some ⟨2, 5, 7⟩))[1]? =
      (standardized_precipitation_index (fun q x => q.shape * x) (fun x => x)
        (fun _ => ⟨1, 1, 1⟩) [(9 : ℚ), 2, 3] 1 (some ⟨2, 5, 7⟩))[1]? :=
  ⟨by norm_num [rollingSum, List.range_succ],
    (spi_supplied_params_deterministic (fun q x => q.shape * x) (fun x => x)
      (fun _ => ⟨0, 0, 0⟩) (fun _ => ⟨1, 1, 1⟩) [(1 : ℚ), 2, 3] [(9 : ℚ), 2, 3]
      1 ⟨2, 5, 7⟩).2 1 (by norm_num [rollingSum, List.range_succ])⟩

/-- C3 counterexample: the claim says every CDF probability of exactly 0 or 1 is
clamped strictly inside `(0, 1)` before the inverse normal CDF, so that no
finite non-missing aggregated input yields an infinite output. The source
(meteorological.py lines 199-200) applies `norm.ppf` directly to `gamma.cdf`
with no clamping: for the all-zero precipitation series `[0, 0]` at scale 1 with
parameters `(shape, loc, scale) = (1, 0, 1)`, every aggregated value is the
finite, non-missing 0, its CDF probability is exactly 0 (it lies at the support
boundary `loc`), and the standardized output is `-infinity` at every index. -/
theorem spi_unclamped_boundary_counterexample :
    standardized_precipitation_index (gamma_cdf (fun _ _ => 1 / 2))
        (norm_ppf (fun _ => 0)) (fun _ => ⟨1, 0, 1⟩) [(0 : ℚ), 0] 1
        (some ⟨1, 0, 1⟩) =
      [some FloatVal.negInf, some FloatVal.negInf] ∧
    (rollingSum [(0 : ℚ), 0] 1)[0]? = some (some 0) := by
  constructor
  · norm_num [standardized_precipitation_index, rollingSum, List.range_succ,
      gamma_cdf, norm_ppf]
  · norm_num [rollingSum, List.range_succ]

/-- C3 amended: no clamping is performed; a CDF probability of exactly 0 passes
unchanged to the inverse normal CDF. Whenever the aggregated entry at `i` is a
finite non-missing value at or below the location parameter of the supplied
distribution (CDF probability exactly 0), the standardized output at `i` is
`-infinity`. -/
theorem spi_no_clamping_negInf (cdfMid : DistParams → ℚ → ℚ) (ppfMid : ℚ → ℚ)
    (gammaFit : List ℚ → DistParams) (precip : List ℚ) (scale : Nat)
    (p : DistParams) (i : Nat) (v : ℚ)
    (hv : (rollingSum precip scale)[i]? = some (some v)) (hloc : v ≤ p.loc) :
    (standardized_precipitation_index (gamma_cdf cdfMid) (norm_ppf ppfMid)
        gammaFit precip scale (some p))[i]? =
      some (some FloatVal.negInf) := by
  rw [spi_entry (gamma_cdf cdfMid) (norm_ppf ppfMid) gammaFit precip scale p i,
    hv]
  simp [gamma_cdf, norm_ppf, hloc]

/-- Witness for C3 amended at `precip = [0, 0]`, `scale = 1`,
`params = (1, 0, 1)`, index 0. -/
theorem spi_no_clamping_negInf_witness :
    (rollingSum [(0 : ℚ), 0] 1)[0]? = some (some 0) ∧
    (0 : ℚ) ≤ (⟨1, 0, 1⟩ : DistParams).loc ∧
    (standardized_precipitation_index (gamma_cdf (fun _ _ => 1 / 2))
        (norm_ppf (fun q => q + 1)) (fun _ => ⟨1, 0, 1⟩) [(0 : ℚ), 0] 1
        (some ⟨1, 0, 1⟩))[0]? =
      some (some FloatVal.negInf) :=
  ⟨by norm_num [rollingSum, List.range_succ], by norm_num,
    spi_no_clamping_negInf (fun _ _ => 1 / 2) (fun q => q + 1)
      (fun _ => ⟨1, 0, 1⟩) [(0 : ℚ), 0] 1 ⟨1, 0, 1⟩ 0 0
      (by norm_num [rollingSum, List.range_succ]) (by norm_num)⟩

/-- C4 counterexample: the claim says that on a sample with exactly one strictly
positive value fitting fails with an `InsufficientData` condition rather than
returning parameters. The source (distribution.py lines 23-37) has no such
check: on `[-1, 5, 0]` exactly one positive value `5` survives the filter, the
library fitter is still invoked on the singleton `[5]`, and its parameters are
returned (here a fitter reporting the sample length as shape, so the result
records that a 1-element sample was fitted). -/
theorem fit_gamma_single_positive_counterexample :
    ([(-1 : ℚ), 5, 0].filter (fun x => decide (0 < x))).length = 1 ∧
    fit_gamma_distribution (fun l => ⟨(l.length : ℚ), 0, 0⟩) [(-1 : ℚ), 5, 0] =
      ⟨1, 0, 0⟩ := by
  constructor
  · norm_num [List.filter]
  · norm_num [fit_gamma_distribution, List.filter]

/-- C4 amended: `fit_gamma_distribution`, `fit_weibull_distribution` and
`fit_log_normal_distribution` keep exactly the strictly positive values of the
sample (every kept value is positive, every positive value is kept, order is
preserved) and then unconditionally return the library fit of the remainder —
there is no minimum-count check and no `InsufficientData` condition in the
repository code, however few values remain. -/
theorem fitters_filter_positive_no_minimum_check
    (gammaFit weibullFit lognormFit : List ℚ → DistParams) (data : List ℚ) :
    ∃ kept : List ℚ, kept.Sublist data ∧ (∀ x ∈ kept, (0 : ℚ) < x) ∧
      (∀ x ∈ data, (0 : ℚ) < x → x ∈ kept) ∧
      fit_gamma_distribution gammaFit data = gammaFit kept ∧
      fit_weibull_distribution weibullFit data = weibullFit kept ∧
      fit_log_normal_distribution lognormFit data = lognormFit kept := by
  refine ⟨data.filter (fun x => decide (0 < x)), List.filter_sublist data,
    ?_, ?_, rfl, rfl, rfl⟩
  · intro x hx
    exact of_decide_eq_true (List.mem_filter.mp hx).2
  · intro x hx hpos
    exact List.mem_filter.mpr ⟨hx, decide_eq_true hpos⟩

/-- Witness for C4 amended at the sample `[-1, 5, 0]` (the kept sublist is
`[5]`, of length 1, and all three fitters are still invoked on it). -/
theorem fitters_filter_positive_no_minimum_check_witness :
    ∃ kept : List ℚ, kept.Sublist [(-1 : ℚ), 5, 0] ∧
      (∀ x ∈ kept, (0 : ℚ) < x) ∧
      (∀ x ∈ [(-1 : ℚ), 5, 0], (0 : ℚ) < x → x ∈ kept) ∧
      fit_gamma_distribution (fun l => ⟨(l.length : ℚ), 0, 0⟩) [(-1 : ℚ), 5, 0] =
        (fun l => (⟨(l.length : ℚ), 0, 0⟩ : DistParams)) kept ∧
      fit_weibull_distribution (fun l => ⟨(l.length : ℚ), 0, 0⟩) [(-1 : ℚ), 5, 0] =
        (fun l => (⟨(l.length : ℚ), 0, 0⟩ : DistParams)) kept ∧
      fit_log_normal_distribution (fun l => ⟨(l.length : ℚ), 0, 0⟩)
          [(-1 : ℚ), 5, 0] =
        (fun l => (⟨(l.length : ℚ), 0, 0⟩ : DistParams)) kept :=
  fitters_filter_positive_no_minimum_check (fun l => ⟨(l.length : ℚ), 0, 0⟩)
    (fun l => ⟨(l.length : ℚ), 0, 0⟩) (fun l => ⟨(l.length : ℚ), 0, 0⟩)
    [(-1 : ℚ), 5, 0]

/-- C5: for equal-length precipitation and PET series,
`standardized_precipitation_evapotranspiration_index` is exactly
`standardized_precipitation_index` applied to the elementwise water-balance
series `D = precip - pet`, with the same scale and optional parameters. -/
theorem spei_eq_spi_on_water_balance {α : Type} (cdf : DistParams → ℚ → ℚ)
    (ppf : ℚ → α) (gammaFit : List ℚ → DistParams) (precip pet : List ℚ)
    (scale : Nat) (distribution_params : Option DistParams)
    (h : precip.length = pet.length) :
    standardized_precipitation_evapotranspiration_index cdf ppf gammaFit
        precip pet scale distribution_params =
      standardized_precipitation_index cdf ppf gammaFit
        (List.zipWith (fun p e => p - e) precip pet) scale
        distribution_params := rfl

/-- Witness for C5 at `precip = [3, 5]`, `pet = [1, 2]`, scale 1. -/
theorem spei_eq_spi_on_water_balance_witness :
    [(3 : ℚ), 5].length = [(1 : ℚ), 2].length ∧
    standardized_precipitation_evapotranspiration_index (fun q x => q.loc + x)
        (fun x => x) (fun l => ⟨l.sum, 0, 0⟩) [(3 : ℚ), 5] [(1 : ℚ), 2] 1 none =
      standardized_precipitation_index (fun q x => q.loc + x) (fun x => x)
        (fun l => ⟨l.sum, 0, 0⟩)
        (List.zipWith (fun p e => p - e) [(3 : ℚ), 5] [(1 : ℚ), 2]) 1 none :=
  ⟨rfl, spei_eq_spi_on_water_balance (fun q x => q.loc + x) (fun x => x)
    (fun l => ⟨l.sum, 0, 0⟩) [(3 : ℚ), 5] [(1 : ℚ), 2] 1 none rfl⟩

/-- C9: `fit_distribution` dispatches `gamma`, `weibull` and `lognormal` to the
corresponding fitter, and for any other family name raises the unsupported-type
`ValueError` instead of fitting a fallback distribution. -/
theorem fit_distribution_dispatch_and_unsupported
    (gammaFit weibullFit lognormFit : List ℚ → DistParams) (data : List ℚ)
    (distribution_type : String) (hg : distribution_type ≠ "gamma")
    (hw : distribution_type ≠ "weibull") (hl : distribution_type ≠ "lognormal") :
    fit_distribution gammaFit weibullFit lognormFit data "gamma" =
      Except.ok (fit_gamma_distribution gammaFit data) ∧
    fit_distribution gammaFit weibullFit lognormFit data "weibull" =
      Except.ok (fit_weibull_distribution weibullFit data) ∧
    fit_distribution gammaFit weibullFit lognormFit data "lognormal" =
      Except.ok (fit_log_normal_distribution lognormFit data) ∧
    fit_distribution gammaFit weibullFit lognormFit data distribution_type =
      Except.error PyError.valueError := by
  refine ⟨by simp [fit_distribution], by simp [fit_distribution],
    by simp [fit_distribution], ?_⟩
  simp [fit_distribution, hg, hw, hl]

/-- Witness for C9 at the family name `foo`. -/
theorem fit_distribution_dispatch_and_unsupported_witness :
    fit_distribution (fun _ => ⟨1, 0, 1⟩) (fun _ => ⟨2, 0, 1⟩)
        (fun _ => ⟨3, 0, 1⟩) [(1 : ℚ)] "foo" =
      Except.error PyError.valueError :=
  (fit_distribution_dispatch_and_unsupported (fun _ => ⟨1, 0, 1⟩)
    (fun _ => ⟨2, 0, 1⟩) (fun _ => ⟨3, 0, 1⟩) [(1 : ℚ)] "foo" (by decide)
    (by decide) (by decide)).2.2.2

/-- Successful run of the update loop: when the coefficient array reaches at
least to the end of `old`, every key is blended with weights 0.7 / 0.3. -/
lemma update_loop_ok (new_params : List ℚ) :
    ∀ (old : List (String × ℚ)) (i : Nat), i + old.length ≤ new_params.length →
      ∃ l, update_loop new_params i old = Except.ok l ∧ l.length = old.length ∧
        ∀ j : Nat, l[j]? = (old[j]?).map
          (fun kv => (kv.1, 0.7 * kv.2 + 0.3 * new_params.getD (i + j) 0))
  | [], i, _ => ⟨[], rfl, rfl, by intro j; simp⟩
  | (key, v) :: rest, i, h => by
    have hi : i < new_params.length := by
      simp only [List.length_cons] at h; omega
    obtain ⟨tl, htl, hlen, hj⟩ := update_loop_ok new_params rest (i + 1)
      (by simp only [List.length_cons] at h; omega)
    refine ⟨(key, 0.7 * v + 0.3 * new_params[i]) :: tl, ?_, by simp [hlen], ?_⟩
    · simp only [update_loop, List.getElem?_eq_getElem hi, htl]
    · intro j
      cases j with
      | zero =>
        simp [List.getD, List.getElem?_eq_getElem hi]
      | succ j' =>
        simp only [List.getElem?_cons_succ, hj j']
        have harith : i + 1 + j' = i + (j' + 1) := by omega
        rw [harith]

/-- Failing run of the update loop: when the coefficient array ends before
`old` does, the out-of-range subscript raises `IndexError`. -/
lemma update_loop_err (new_params : List ℚ) :
    ∀ (old : List (String × ℚ)) (i : Nat), new_params.length - i < old.length →
      update_loop new_params i old = Except.error PyError.indexError
  | [], i, h => by simp at h
  | (key, v) :: rest, i, h => by
    by_cases hi : i < new_params.length
    · have herr := update_loop_err new_params rest (i + 1)
        (by simp only [List.length_cons] at h; omega)
      simp only [update_loop, List.getElem?_eq_getElem hi, herr]
    · have hnone : new_params[i]? = none := List.getElem?_eq_none (by omega)
      simp only [update_loop, hnone]

/-- C6: when the freshly estimated coefficient array covers every key of
`old_params`, `update_calibration_parameters` returns, for each key in order,
exactly `0.7 * old + 0.3 * new`; in particular updating `a = 1` with new
coefficient `2` yields exactly `a = 13/10 = 1.3` (arithmetic modelled over
`ℚ`). -/
theorem update_blends_with_fixed_weights
    (linfit : List (List ℚ) → List ℚ → List ℚ)
    (old_params : List (String × ℚ)) (X_new : List (List ℚ)) (y_new : List ℚ)
    (h : old_params.length ≤ (linfit X_new y_new).length) :
    (∃ l, update_calibration_parameters linfit old_params X_new y_new =
        Except.ok l ∧
      l.length = old_params.length ∧
      ∀ j : Nat, l[j]? = (old_params[j]?).map
        (fun kv => (kv.1, 0.7 * kv.2 + 0.3 * (linfit X_new y_new).getD j 0))) ∧
    update_calibration_parameters (fun _ _ => [(2 : ℚ)]) [("a", 1)] [] [] =
      Except.ok [("a", 13 / 10)] := by
  constructor
  · obtain ⟨l, hl, hlen, hj⟩ :=
      update_loop_ok (linfit X_new y_new) old_params 0 (by omega)
    exact ⟨l, hl, hlen, fun j => by simpa using hj j⟩
  · norm_num [update_calibration_parameters, update_loop]

/-- Witness for C6 at `old_params = [(a, 1)]` and coefficient array `[2]`. -/
theorem update_blends_with_fixed_weights_witness :
    (∃ l, update_calibration_parameters (fun _ _ => [(2 : ℚ)]) [("a", 1)] [] [] =
        Except.ok l ∧
      l.length = [("a", (1 : ℚ))].length ∧
      ∀ j : Nat, l[j]? = ([("a", (1 : ℚ))][j]?).map
        (fun kv => (kv.1, 0.7 * kv.2 + 0.3 * [(2 : ℚ)].getD j 0))) ∧
    update_calibration_parameters (fun _ _ => [(2 : ℚ)]) [("a", 1)] [] [] =
      Except.ok [("a", 13 / 10)] :=
  update_blends_with_fixed_weights (fun _ _ => [(2 : ℚ)]) [("a", 1)] [] []
    (by simp)

/-- C7 counterexample: the claim says degenerate inputs (in particular an empty
observed series) make `calibrate_index` and `self_calibrated_pdsi` fail with an
`InvalidCalibrationInput` condition before the search begins. The source
(calibration_utils.py lines 22-64 and 66-95) performs no validation at all: on
entirely empty series both functions run the search and return a complete
(parameters, series) result — here with the search stub returning its starting
point, so `a = b = (c =) 1`. -/
theorem calibration_empty_input_counterexample :
    calibrate_index (fun _ x0 => x0) (fun d _ _ => d) [] [] [] =
      ([("a", 1), ("b", 1)], []) ∧
    self_calibrated_pdsi (fun _ x0 => x0) [] [] [] [] [] =
      ([], [("a", 1), ("b", 1), ("c", 1)]) := by
  constructor <;> rfl

/-- C7 amended: neither `calibrate_index` nor `self_calibrated_pdsi` checks its
inputs; there is no `InvalidCalibrationInput` condition in the repository code.
Even for entirely empty input series both return a complete result: a
coefficient set with the expected keys together with the (empty) reconstructed
series, for every search procedure and every index function. -/
theorem calibration_no_input_validation
    (minimize2 : ((ℚ × ℚ) → ℚ) → (ℚ × ℚ) → (ℚ × ℚ))
    (minimize3 : ((ℚ × ℚ × ℚ) → ℚ) → (ℚ × ℚ × ℚ) → (ℚ × ℚ × ℚ))
    (index_function : List ℚ → ℚ → ℚ → List ℚ)
    (kwargs initial_parameters : List (String × ℚ)) :
    (∃ a b, calibrate_index minimize2 index_function [] [] kwargs =
      ([("a", a), ("b", b)], index_function [] a b)) ∧
    (∃ a b c, self_calibrated_pdsi minimize3 [] [] [] [] initial_parameters =
      ([], [("a", a), ("b", b), ("c", c)])) :=
  ⟨⟨_, _, rfl⟩, ⟨_, _, _, rfl⟩⟩

/-- C8 counterexample: the claim says parameter sets with different coefficient
key sets (different keys or counts) make the update fail with
`ParameterMismatch` instead of returning an updated set. The source
(calibration_utils.py lines 97-132) has no such check: with two old keys and a
three-entry coefficient array (mismatched counts) the update silently ignores
the extra coefficient and returns an updated parameter set. -/
theorem update_mismatched_counts_counterexample :
    update_calibration_parameters (fun _ _ => [(2 : ℚ), 3, 4])
        [("a", 1), ("b", 1)] [] [] =
      Except.ok [("a", 13 / 10), ("b", 16 / 10)] := by
  norm_num [update_calibration_parameters, update_loop]

/-- C8 amended: `update_calibration_parameters` has no `ParameterMismatch`
condition; the new parameters form an unkeyed coefficient array. When that
array has at least as many entries as `old_params` the update succeeds (extra
entries are silently ignored); only when it has fewer entries does the update
fail, with an index-out-of-range error. -/
theorem update_no_parameter_mismatch_check
    (linfit : List (List ℚ) → List ℚ → List ℚ)
    (old_params : List (String × ℚ)) (X_new : List (List ℚ)) (y_new : List ℚ) :
    (old_params.length ≤ (linfit X_new y_new).length →
      ∃ l, update_calibration_parameters linfit old_params X_new y_new =
        Except.ok l) ∧
    ((linfit X_new y_new).length < old_params.length →
      update_calibration_parameters linfit old_params X_new y_new =
        Except.error PyError.indexError) := by
  constructor
  · intro h
    obtain ⟨l, hl, -, -⟩ :=
      update_loop_ok (linfit X_new y_new) old_params 0 (by omega)
    exact ⟨l, hl⟩
  · intro h
    exact update_loop_err (linfit X_new y_new) old_params 0 (by omega)

/-- Witness for C8 amended: a one-entry array covering one key succeeds; an
empty array under one key raises the index error. -/
theorem update_no_parameter_mismatch_check_witness :
    (∃ l, update_calibration_parameters (fun _ _ => [(2 : ℚ)]) [("b", 1)] [] [] =
      Except.ok l) ∧
    update_calibration_parameters (fun _ _ => ([] : List ℚ)) [("a", 1)] [] [] =
      Except.error PyError.indexError :=
  ⟨(update_no_parameter_mismatch_check (fun _ _ => [(2 : ℚ)]) [("b", 1)]
      [] []).1 (by simp),
    (update_no_parameter_mismatch_check (fun _ _ => ([] : List ℚ)) [("a", 1)]
      [] []).2 (by simp)⟩

/-- C10: whatever the search procedure, index function, data and extra keyword
arguments, `calibrate_index` returns a parameter dictionary with exactly the
keys `a` and `b`, and the returned series is the index function evaluated at
those same returned coefficients; the result does not depend on the keyword
arguments. -/
theorem calibrate_index_result_consistent
    (minimize2 : ((ℚ × ℚ) → ℚ) → (ℚ × ℚ) → (ℚ × ℚ))
    (index_function : List ℚ → ℚ → ℚ → List ℚ)
    (observed input_data : List ℚ) (kwargs kwargs' : List (String × ℚ)) :
    (∃ a b, calibrate_index minimize2 index_function observed input_data kwargs =
      ([("a", a), ("b", b)], index_function input_data a b)) ∧
    calibrate_index minimize2 index_function observed input_data kwargs =
      calibrate_index minimize2 index_function observed input_data kwargs' :=
  ⟨⟨_, _, rfl⟩, rfl⟩
